import Mathlib

/-!
Shallow embedding of the `cloudjack` factory / configuration-resolution /
client-cache core, translated from:

  * `cloud/base/config.py`       (AWSConfig, GCPConfig, CONFIG_REGISTRY, validate_config)
  * `cloud/base/client_cache.py` (ClientCache: `_make_key`, `get_or_create`, `clear`, `__new__`)
  * `cloud/aws/factory.py`, `cloud/gcp/factory.py` (SERVICE_REGISTRY tables)
  * `cloud/factory.py`           (`_FACTORY_REGISTRY`, `universal_factory`)

Modelling conventions:

  * A Python `dict[str, ...]` raw-config is an association list
    `List (String × Option String)`; a value `none` models an explicit
    Python `None`, `some s` a string value.  Python truthiness of a value
    (`not values.get(field)`) is `truthy` below: `None` and `""` are falsy.
  * The process environment (`os.environ`) is a function `String → Option String`.
  * The filesystem (`pathlib.Path.exists` plus the eager credential load
    performed by `GCPConfig.validate_project_and_credentials`) is a structure
    `FS`; loading a service-account file is modelled as a total function
    producing an opaque credential token (parse failures of the third-party
    SDK are outside the embedded core).
  * Python exceptions are the inductive `PyErr`: `ValueError` raised directly
    (factory registry checks, `validate_config`'s unknown-provider branch)
    versus `pydantic.ValidationError` (every failure raised while validating a
    config model, including `ValueError`s raised inside `model_validator`s,
    which pydantic wraps).
  * `ClientCache._make_key` serialises `{provider, service, config}` with
    `json.dumps(..., sort_keys=True)` and hashes with SHA-256.  The key is
    modelled as the pre-hash canonical form (provider, service, entries sorted
    by key): SHA-256 is a fixed function of that serialisation, so key
    equality in the code coincides with equality of the canonical form
    (collisions of SHA-256 are not modelled).
  * Backend construction (`service_class(configObj)`) performs no observable
    work in the core beyond allocating a fresh adapter object; it is modelled
    as drawing a fresh identity from `World.nextId` and appending the
    invocation to a construction log, so that object identity and constructor
    invocation counts are observable.
-/

/-- Raw, untyped configuration mapping (a Python `dict`): insertion-ordered
association list of field name to value (`none` = explicit Python `None`). -/
abbrev RawConfig := List (String × Option String)

/-- Python truthiness of an optional string value: `None` and `""` are falsy. -/
def truthy : Option String → Bool
  | none => false
  | some s => s != ""

/-- `values.get(field)` on a Python dict: `None` both when the key is absent
and when it is present with value `None`. -/
def pyGet (cfg : RawConfig) (k : String) : Option String :=
  match cfg.lookup k with
  | none => none
  | some v => v

/-- Python `a or b` over optional strings (as in
`os.environ.get("GOOGLE_CLOUD_PROJECT") or os.environ.get("GCLOUD_PROJECT")`). -/
def pyOr (a b : Option String) : Option String :=
  if truthy a then a else b

/-- The process environment `os.environ`: variable name to value. -/
abbrev Env := String → Option String

/-- Filesystem state seen by `GCPConfig.validate_project_and_credentials`:
whether a path exists, and the credential object parsed from a
service-account file (`google.oauth2.service_account.Credentials.from_service_account_file`,
modelled as an opaque string token). -/
structure FS where
  pathExists : String → Bool
  loadCred : String → String

/-- Python exceptions crossing the core's boundary: a plain `ValueError`
(with its message) or a `pydantic.ValidationError` (with the messages of the
underlying errors). -/
inductive PyErr
  | valueError (msg : String)
  | validationError (msgs : List String)
deriving Repr, DecidableEq

/-- The Python exception class of an error (pydantic wraps validator
`ValueError`s, so a `ValidationError` is a distinct class from `ValueError`). -/
def PyErr.kind : PyErr → String
  | .valueError _ => "ValueError"
  | .validationError _ => "ValidationError"

/-- `True` exactly on `Except.error`. -/
def isError {ε α : Type} : Except ε α → Bool
  | .error _ => true
  | .ok _ => false

/-- Field names declared on `AWSConfig` (its pydantic schema;
`model_config = ConfigDict(extra="forbid")` rejects everything else). -/
def awsFields : List String :=
  ["aws_access_key_id", "aws_secret_access_key", "region_name"]

/-- Field names declared on `GCPConfig`. -/
def gcpFields : List String :=
  ["project_id", "credentials", "credentials_path"]

/-- Keys of a raw config not declared on the target schema
(rejected by pydantic's `extra="forbid"`). -/
def unknownKeys (cfg : RawConfig) (allowed : List String) : List String :=
  (cfg.map Prod.fst).filter (fun k => !(allowed.contains k))

/-- Validated `AWSConfig` model: three optional credential fields. -/
structure AWSConfig where
  aws_access_key_id : Option String
  aws_secret_access_key : Option String
  region_name : Option String
deriving Repr, DecidableEq

/-- One step of `AWSConfig.resolve_from_env` (the `mode="before"` validator):
`if not values.get(field): values[field] = os.environ.get(env_var)`. -/
def awsResolveField (cfg : RawConfig) (env : Env) (field envVar : String) :
    Option String :=
  if truthy (pyGet cfg field) then pyGet cfg field else env envVar

/-- `AWSConfig(**cfg)`: run the `resolve_from_env` before-validator, then
pydantic field validation with `extra="forbid"`.  The only failure the model
can produce (over string-valued inputs) is an extra-key rejection. -/
def awsValidate (cfg : RawConfig) (env : Env) : Except PyErr AWSConfig :=
  let extra := unknownKeys cfg awsFields
  if extra.isEmpty then
    .ok
      { aws_access_key_id := awsResolveField cfg env "aws_access_key_id" "AWS_ACCESS_KEY_ID"
        aws_secret_access_key := awsResolveField cfg env "aws_secret_access_key" "AWS_SECRET_ACCESS_KEY"
        region_name := awsResolveField cfg env "region_name" "AWS_DEFAULT_REGION" }
  else
    .error (.validationError (extra.map (fun k => "Extra inputs are not permitted: " ++ k)))

/-- Validated `GCPConfig` model. -/
structure GCPConfig where
  project_id : Option String
  credentials : Option String
  credentials_path : Option String
deriving Repr, DecidableEq

/-- `GCPConfig.resolve_from_env` on `project_id`:
`values["project_id"] = os.environ.get("GOOGLE_CLOUD_PROJECT") or os.environ.get("GCLOUD_PROJECT")`
when the raw value is falsy. -/
def gcpResolveProject (cfg : RawConfig) (env : Env) : Option String :=
  if truthy (pyGet cfg "project_id") then pyGet cfg "project_id"
  else pyOr (env "GOOGLE_CLOUD_PROJECT") (env "GCLOUD_PROJECT")

/-- `GCPConfig.resolve_from_env` on `credentials_path`: fall back to
`GOOGLE_APPLICATION_CREDENTIALS` when the raw value is falsy. -/
def gcpResolveCredPath (cfg : RawConfig) (env : Env) : Option String :=
  if truthy (pyGet cfg "credentials_path") then pyGet cfg "credentials_path"
  else env "GOOGLE_APPLICATION_CREDENTIALS"

/-- Message of the `ValueError` raised by
`GCPConfig.validate_project_and_credentials` when `project_id` is `None`. -/
def gcpProjectRequiredMsg : String :=
  "GCP project_id is required. Set it explicitly or via GOOGLE_CLOUD_PROJECT / GCLOUD_PROJECT environment variable."

/-- `GCPConfig(**cfg)`: before-validator (`resolve_from_env`), pydantic field
validation with `extra="forbid"`, then the `mode="after"` validator
`validate_project_and_credentials` (mandatory `project_id`; eager check and
load of the credentials file when `credentials is None and credentials_path`). -/
def gcpValidate (cfg : RawConfig) (env : Env) (fs : FS) : Except PyErr GCPConfig :=
  let extra := unknownKeys cfg gcpFields
  if extra.isEmpty then
    let project := gcpResolveProject cfg env
    let credPath := gcpResolveCredPath cfg env
    let creds := pyGet cfg "credentials"
    match project with
    | none => .error (.validationError [gcpProjectRequiredMsg])
    | some p =>
      if creds.isNone && truthy credPath then
        match credPath with
        | some path =>
          if fs.pathExists path then
            .ok { project_id := some p
                  credentials := some (fs.loadCred path)
                  credentials_path := some path }
          else
            .error (.validationError ["Credentials file not found: " ++ path])
        | none =>
          .ok { project_id := some p, credentials := creds, credentials_path := none }
      else
        .ok { project_id := some p, credentials := creds, credentials_path := credPath }
  else
    .error (.validationError (extra.map (fun k => "Extra inputs are not permitted: " ++ k)))

/-- The two pydantic config models registered in `CONFIG_REGISTRY`. -/
inductive ConfigModel
  | awsModel
  | gcpModel
deriving Repr, DecidableEq

/-- `CONFIG_REGISTRY: dict[str, type[BaseModel]] = {"aws": AWSConfig, "gcp": GCPConfig}`. -/
def CONFIG_REGISTRY : List (String × ConfigModel) :=
  [("aws", .awsModel), ("gcp", .gcpModel)]

/-- A validated, provider-typed configuration object (`validate_config`'s result). -/
inductive ProviderConfig
  | aws (c : AWSConfig)
  | gcp (c : GCPConfig)
deriving Repr, DecidableEq

/-- `validate_config(cloud_provider, config)`: look the provider up in
`CONFIG_REGISTRY` (raising a plain `ValueError` when absent), then construct
the model. -/
def validate_config (cloud_provider : String) (config : RawConfig)
    (env : Env) (fs : FS) : Except PyErr ProviderConfig :=
  match CONFIG_REGISTRY.lookup cloud_provider with
  | none => .error (.valueError ("No config model registered for provider: " ++ cloud_provider))
  | some .awsModel => (awsValidate config env).map ProviderConfig.aws
  | some .gcpModel => (gcpValidate config env fs).map ProviderConfig.gcp

/-- `cloud/aws/factory.py`'s `SERVICE_REGISTRY` (service classes as names). -/
def AWS_SERVICES : List (String × String) :=
  [("secret_manager", "aws.SecretManager"), ("storage", "aws.Storage"),
   ("queue", "aws.Queue"), ("compute", "aws.Compute"), ("dns", "aws.DNS"),
   ("iam", "aws.IAM"), ("logging", "aws.Logging")]

/-- `cloud/gcp/factory.py`'s `SERVICE_REGISTRY`. -/
def GCP_SERVICES : List (String × String) :=
  [("secret_manager", "gcp.SecretManager"), ("storage", "gcp.Storage"),
   ("queue", "gcp.Queue"), ("compute", "gcp.Compute"), ("dns", "gcp.DNS"),
   ("iam", "gcp.IAM"), ("logging", "gcp.Logging")]

/-- `cloud/factory.py`'s `_FACTORY_REGISTRY = {"aws": AWS_SERVICES, "gcp": GCP_SERVICES}`. -/
def FACTORY_REGISTRY : List (String × List (String × String)) :=
  [("aws", AWS_SERVICES), ("gcp", GCP_SERVICES)]

/-- Observable construction state: the next fresh object identity and the log
of backend-constructor invocations (class name, config argument). -/
structure World where
  nextId : Nat
  constructed : List (String × ProviderConfig)
deriving Repr, DecidableEq

/-- `service_class(configObj)`: allocate a fresh backend instance (identified
by a fresh `Nat`) and record the constructor invocation. -/
def construct (service_class : String) (cfg : ProviderConfig) (w : World) :
    Nat × World :=
  (w.nextId,
   { nextId := w.nextId + 1
     constructed := w.constructed ++ [(service_class, cfg)] })

/-- `universal_factory(service_name, cloud_provider, config)` from
`cloud/factory.py`: provider-registry check, service-registry check,
`validate_config`, then direct construction `service_class(configObj)`. -/
def universal_factory (service_name cloud_provider : String) (config : RawConfig)
    (env : Env) (fs : FS) (w : World) : Except PyErr (Nat × World) :=
  match FACTORY_REGISTRY.lookup cloud_provider with
  | none => .error (.valueError ("Unsupported cloud provider: " ++ cloud_provider))
  | some provider_services =>
    match provider_services.lookup service_name with
    | none =>
        .error (.valueError
          ("Unsupported service '" ++ service_name ++ "' for provider '" ++ cloud_provider ++ "'"))
    | some service_class =>
      match validate_config cloud_provider config env fs with
      | .error e => .error e
      | .ok configObj => .ok (construct service_class configObj w)

namespace ClientCache

/-- Canonical cache key: the pre-hash content of
`json.dumps({"provider": ..., "service": ..., "config": ...}, sort_keys=True)`
(the SHA-256 of which is the concrete dict key in the code).  `sort_keys=True`
sorts the config mapping's keys, making the serialisation independent of dict
insertion order. -/
structure CacheKey where
  provider : String
  service : String
  config : List (String × Option String)
deriving Repr, DecidableEq

/-- Lexicographic code-point comparison of character lists: the order Python
uses on `str` (and hence the order `sorted`/`sort_keys=True` sorts keys by). -/
def charListLe : List Char → List Char → Bool
  | [], _ => true
  | _ :: _, [] => false
  | a :: as, b :: bs =>
    if a < b then true
    else if b < a then false
    else charListLe as bs

/-- Python string comparison `a <= b`. -/
def strLe (a b : String) : Bool := charListLe a.data b.data

/-- Ordering on config entries used by the canonical serialisation: compare
by field name (`json.dumps(..., sort_keys=True)` sorts a dict's keys; a dict's
keys are pairwise distinct, so any key-comparison sort computes the same
canonical entry list). -/
def entryLe (a b : String × Option String) : Prop := strLe a.1 b.1 = true

instance : DecidableRel entryLe := fun a b =>
  inferInstanceAs (Decidable (strLe a.1 b.1 = true))

/-- `ClientCache._make_key(cloud_provider, service_name, config)`: canonical,
key-sorted form of the three inputs. -/
def make_key (cloud_provider service_name : String) (config : RawConfig) :
    CacheKey :=
  { provider := cloud_provider
    service := service_name
    config := List.insertionSort entryLe config }

/-- The cache's underlying mapping `_cache` (values of type `α`). -/
abbrev CacheMap (α : Type) := List (CacheKey × α)

/-- Lookup in the cache mapping (`key in self._cache` / `self._cache[key]`). -/
def cacheLookup {α : Type} (cache : CacheMap α) (k : CacheKey) : Option α :=
  match cache with
  | [] => none
  | (k', v) :: rest => if k' = k then some v else cacheLookup rest k

/-- `ClientCache.get_or_create(cloud_provider, service_name, config, factory)`.
Returns the call's result (the cached or fresh instance, or the error the
factory raised), the cache mapping after the call, and the number of factory
invocations the call performed (0 on a hit, 1 on a miss).  On a miss the
assignment `self._cache[key] = factory(config)` evaluates the factory first,
so a raising factory leaves the mapping unchanged. -/
def get_or_create {α ε : Type} (cache : CacheMap α)
    (cloud_provider service_name : String) (config : RawConfig)
    (factory : RawConfig → Except ε α) :
    Except ε α × CacheMap α × Nat :=
  let key := make_key cloud_provider service_name config
  match cacheLookup cache key with
  | some v => (.ok v, cache, 0)
  | none =>
    match factory config with
    | .ok v => (.ok v, (key, v) :: cache, 1)
    | .error e => (.error e, cache, 1)

/-- `ClientCache.clear()`: `self._cache.clear()`. -/
def clear {α : Type} (_cache : CacheMap α) : CacheMap α := []

/-- State of the `ClientCache` class and of the Python heap: the class
attribute `_instance` (the singleton's object identity, when allocated), the
next fresh object identity, and each allocated object's `_cache` mapping
(instances cached as `Nat` identities). -/
structure CCWorld where
  instanceId : Option Nat
  nextObj : Nat
  heap : Nat → CacheMap Nat

/-- `ClientCache.__new__`: return the class-level `_instance`, allocating it
(with an empty `_cache`) the first time. -/
def new (s : CCWorld) : Nat × CCWorld :=
  match s.instanceId with
  | some i => (i, s)
  | none =>
    (s.nextObj,
     { instanceId := some s.nextObj
       nextObj := s.nextObj + 1
       heap := fun j => if j = s.nextObj then [] else s.heap j })

/-- `ref.clear()` performed through the reference `ref`. -/
def clearRef (ref : Nat) (s : CCWorld) : CCWorld :=
  { s with heap := fun j => if j = ref then [] else s.heap j }

/-- The `_cache` mapping observed through the reference `ref`. -/
def cacheOf (ref : Nat) (s : CCWorld) : CacheMap Nat := s.heap ref

end ClientCache

/-- Whether `needle` occurs at the start of `hay`. -/
def leadsWith : List Char → List Char → Bool
  | [], _ => true
  | _ :: _, [] => false
  | a :: as, b :: bs => a == b && leadsWith as bs

/-- Whether `needle` occurs contiguously anywhere in `hay`. -/
def hasSub (needle : List Char) : List Char → Bool
  | [] => leadsWith needle []
  | hay@(_ :: rest) => leadsWith needle hay || hasSub needle rest

/-- Whether the string `sub` occurs in the string `s` (used to state that an
error message mentions a field name). -/
def strMentions (sub s : String) : Bool := hasSub sub.data s.data

/-- Modelled from the spec (section 4.1): the per-field resolution precedence
chain — "(1) explicit value in raw_config if present and non-empty, (2) value
of a statically-mapped environment variable, (3) leave unset (None)".  `raw`
is the explicitly supplied value (`none` when the key is absent or explicitly
`None`), `envVal` the environment variable's value. -/
def specFieldPrecedence (raw envVal : Option String) : Option String :=
  match raw with
  | some s => if s = "" then envVal else some s
  | none => envVal

/-- An environment with no variables set. -/
def env0 : Env := fun _ => none

/-- An environment where only `GOOGLE_CLOUD_PROJECT` is set. -/
def envGcpProj : Env := fun v =>
  if v = "GOOGLE_CLOUD_PROJECT" then some "env-proj" else none

/-- A filesystem on which no path exists. -/
def fs0 : FS := { pathExists := fun _ => false, loadCred := fun _ => "cred" }

/-- The initial construction state: no instances allocated. -/
def w0 : World := { nextId := 0, constructed := [] }

/-! ## Order lemmas for the canonical cache-key serialisation -/

open ClientCache

theorem charListLe_refl : ∀ l : List Char, charListLe l l = true
  | [] => rfl
  | a :: as => by
    show (if a < a then true else if a < a then false else charListLe as as) = true
    rw [if_neg (lt_irrefl a), if_neg (lt_irrefl a)]
    exact charListLe_refl as

theorem charListLe_total : ∀ a b : List Char,
    charListLe a b = true ∨ charListLe b a = true
  | [], _ => Or.inl rfl
  | _ :: _, [] => Or.inr rfl
  | a :: as, b :: bs => by
    rcases lt_trichotomy a b with h | rfl | h
    · exact Or.inl (by simp [charListLe, h])
    · simpa [charListLe, lt_irrefl] using charListLe_total as bs
    · exact Or.inr (by simp [charListLe, h])

theorem charListLe_trans : ∀ a b c : List Char,
    charListLe a b = true → charListLe b c = true → charListLe a c = true
  | [], _, _ => fun _ _ => rfl
  | _ :: _, [], _ => fun hab _ => by simp [charListLe] at hab
  | _ :: _, _ :: _, [] => fun _ hbc => by simp [charListLe] at hbc
  | a :: as, b :: bs, c :: cs => by
    intro hab hbc
    simp only [charListLe] at hab hbc ⊢
    rcases lt_trichotomy a b with h1 | rfl | h1
    · rcases lt_trichotomy b c with h2 | rfl | h2
      · simp [lt_trans h1 h2]
      · simp [h1]
      · rw [if_neg (asymm h2), if_pos h2] at hbc
        exact absurd hbc (by simp)
    · rw [if_neg (lt_irrefl a), if_neg (lt_irrefl a)] at hab
      rcases lt_trichotomy a c with h2 | rfl | h2
      · simp [h2]
      · rw [if_neg (lt_irrefl a), if_neg (lt_irrefl a)] at hbc ⊢
        exact charListLe_trans as bs cs hab hbc
      · rw [if_neg (asymm h2), if_pos h2] at hbc
        exact absurd hbc (by simp)
    · rw [if_neg (asymm h1), if_pos h1] at hab
      exact absurd hab (by simp)

theorem charListLe_antisymm : ∀ a b : List Char,
    charListLe a b = true → charListLe b a = true → a = b
  | [], [] => fun _ _ => rfl
  | [], _ :: _ => fun _ hba => by simp [charListLe] at hba
  | _ :: _, [] => fun hab _ => by simp [charListLe] at hab
  | a :: as, b :: bs => by
    intro hab hba
    simp only [charListLe] at hab hba
    rcases lt_trichotomy a b with h | rfl | h
    · rw [if_neg (asymm h), if_pos h] at hba
      exact absurd hba (by simp)
    · rw [if_neg (lt_irrefl a), if_neg (lt_irrefl a)] at hab hba
      rw [charListLe_antisymm as bs hab hba]
    · rw [if_neg (asymm h), if_pos h] at hab
      exact absurd hab (by simp)

theorem entryLe_refl (a : String × Option String) : entryLe a a :=
  charListLe_refl a.1.data

theorem entryLe_total : IsTotal (String × Option String) entryLe :=
  ⟨fun a b => charListLe_total a.1.data b.1.data⟩

theorem entryLe_trans : IsTrans (String × Option String) entryLe :=
  ⟨fun a b c => charListLe_trans a.1.data b.1.data c.1.data⟩

/-- A key-sorted entry list with pairwise-distinct keys is determined by its
entry multiset: two sorted permutations of each other are equal. -/
theorem sorted_nodupkeys_eq : ∀ {l₁ l₂ : RawConfig}, List.Perm l₁ l₂ →
    List.Sorted entryLe l₁ → List.Sorted entryLe l₂ →
    (l₁.map Prod.fst).Nodup → l₁ = l₂ := by
  intro l₁
  induction l₁ with
  | nil =>
    intro l₂ hp _ _ _
    exact (hp.symm.eq_nil).symm
  | cons a t₁ ih =>
    intro l₂ hp hs₁ hs₂ hnd
    cases l₂ with
    | nil => exact absurd hp.eq_nil (by simp)
    | cons b t₂ =>
      have hbmem : b ∈ a :: t₁ := hp.mem_iff.mpr (List.mem_cons_self b t₂)
      have hamem : a ∈ b :: t₂ := hp.mem_iff.mp (List.mem_cons_self a t₁)
      have hab : entryLe a b := by
        rcases List.mem_cons.mp hbmem with h | h
        · rw [h]; exact entryLe_refl a
        · exact List.rel_of_sorted_cons hs₁ b h
      have hba : entryLe b a := by
        rcases List.mem_cons.mp hamem with h | h
        · rw [h]; exact entryLe_refl b
        · exact List.rel_of_sorted_cons hs₂ a h
      have hkey : a.1 = b.1 := by
        have hd := charListLe_antisymm a.1.data b.1.data hab hba
        exact String.ext hd
      have hb : b = a := by
        rcases List.mem_cons.mp hbmem with h | h
        · exact h
        · exfalso
          have hmem : b.1 ∈ t₁.map Prod.fst := List.mem_map_of_mem Prod.fst h
          rw [← hkey] at hmem
          simp only [List.map_cons, List.nodup_cons] at hnd
          exact hnd.1 hmem
      subst hb
      have ht : t₁.Perm t₂ := hp.cons_inv
      have htail : t₁ = t₂ := by
        apply ih ht hs₁.of_cons hs₂.of_cons
        simp only [List.map_cons, List.nodup_cons] at hnd
        exact hnd.2
      rw [htail]

/-- `_make_key` is a pure function of the config's entry set: permuting the
insertion order of a (distinct-keyed) mapping leaves the canonical key
unchanged. -/
theorem ClientCache.make_key_perm (p s : String) {cfg1 cfg2 : RawConfig}
    (hperm : List.Perm cfg1 cfg2) (hnd : (cfg1.map Prod.fst).Nodup) :
    ClientCache.make_key p s cfg1 = ClientCache.make_key p s cfg2 := by
  haveI := entryLe_total
  haveI := entryLe_trans
  have h1 : (List.insertionSort entryLe cfg1).Perm (List.insertionSort entryLe cfg2) :=
    ((List.perm_insertionSort entryLe cfg1).trans hperm).trans
      (List.perm_insertionSort entryLe cfg2).symm
  have hnd' : ((List.insertionSort entryLe cfg1).map Prod.fst).Nodup := by
    have hmp := (List.perm_insertionSort entryLe cfg1).map Prod.fst
    exact (hmp.nodup_iff).mpr hnd
  have e : List.insertionSort entryLe cfg1 = List.insertionSort entryLe cfg2 :=
    sorted_nodupkeys_eq h1 (List.sorted_insertionSort entryLe cfg1)
      (List.sorted_insertionSort entryLe cfg2) hnd'
  simp only [ClientCache.make_key, e]

/-! ## Claim theorems: Client Cache -/

/-- C4: for configs that are permutations of each other (structurally equal
mappings supplied in different insertion orders, keys pairwise distinct),
`ClientCache._make_key` derives the same canonical key; consequently a
`get_or_create` miss followed by a `get_or_create` with the reordered config
returns the identical cached instance, invoking the supplied constructor
exactly once across the two calls (1 on the miss, 0 on the hit). -/
theorem c4_canonical_key_idempotent_memoization {α ε : Type}
    (cache : CacheMap α) (p s : String) (cfg1 cfg2 : RawConfig)
    (g : RawConfig → Except ε α) (v : α)
    (hperm : List.Perm cfg1 cfg2) (hnd : (cfg1.map Prod.fst).Nodup)
    (hmiss : cacheLookup cache (make_key p s cfg1) = none)
    (hok : g cfg1 = .ok v) :
    make_key p s cfg1 = make_key p s cfg2 ∧
    get_or_create cache p s cfg1 g = (.ok v, (make_key p s cfg1, v) :: cache, 1) ∧
    get_or_create ((make_key p s cfg1, v) :: cache) p s cfg2 g
      = (.ok v, (make_key p s cfg1, v) :: cache, 0) := by
  have hk : make_key p s cfg1 = make_key p s cfg2 := make_key_perm p s hperm hnd
  refine ⟨hk, ?_, ?_⟩
  · simp [get_or_create, hmiss, hok]
  · simp [get_or_create, ← hk, cacheLookup]

/-- Witness for `c4_canonical_key_idempotent_memoization` at a concrete
reordered config. -/
theorem c4_witness :
    make_key "aws" "s3" [("region", some "us-east-1"), ("zone", some "a")]
      = make_key "aws" "s3" [("zone", some "a"), ("region", some "us-east-1")] ∧
    get_or_create ([] : CacheMap Nat) "aws" "s3"
        [("region", some "us-east-1"), ("zone", some "a")]
        (fun _ => (.ok 7 : Except String Nat))
      = (.ok 7, [(make_key "aws" "s3" [("region", some "us-east-1"), ("zone", some "a")], 7)], 1) ∧
    get_or_create
        [(make_key "aws" "s3" [("region", some "us-east-1"), ("zone", some "a")], 7)]
        "aws" "s3" [("zone", some "a"), ("region", some "us-east-1")]
        (fun _ => (.ok 7 : Except String Nat))
      = (.ok 7, [(make_key "aws" "s3" [("region", some "us-east-1"), ("zone", some "a")], 7)], 0) :=
  c4_canonical_key_idempotent_memoization [] "aws" "s3"
    [("region", some "us-east-1"), ("zone", some "a")]
    [("zone", some "a"), ("region", some "us-east-1")]
    (fun _ => (.ok 7 : Except String Nat)) 7
    (by decide) (by decide) rfl rfl

/-- C6: when the constructor raises on a cache miss, `get_or_create`
propagates the error, leaves the cache mapping unchanged with the key still
absent, and a subsequent call for the same (provider, service, config) with a
succeeding constructor invokes it again (clean retry, no poisoned entry). -/
theorem c6_failed_construction_leaves_no_entry {α ε : Type}
    (cache : CacheMap α) (p s : String) (cfg : RawConfig)
    (g h : RawConfig → Except ε α) (e : ε) (v : α)
    (hmiss : cacheLookup cache (make_key p s cfg) = none)
    (hfail : g cfg = .error e) (hok : h cfg = .ok v) :
    get_or_create cache p s cfg g = (.error e, cache, 1) ∧
    cacheLookup (get_or_create cache p s cfg g).2.1 (make_key p s cfg) = none ∧
    get_or_create (get_or_create cache p s cfg g).2.1 p s cfg h
      = (.ok v, (make_key p s cfg, v) :: cache, 1) := by
  have h1 : get_or_create cache p s cfg g = (.error e, cache, 1) := by
    simp [get_or_create, hmiss, hfail]
  refine ⟨h1, ?_, ?_⟩
  · rw [h1]; exact hmiss
  · rw [h1]; simp [get_or_create, hmiss, hok]

/-- Witness for `c6_failed_construction_leaves_no_entry` with a concrete
failing constructor followed by a succeeding one. -/
theorem c6_witness :
    get_or_create ([] : CacheMap Nat) "aws" "storage" [("region", some "r")]
        (fun _ => (.error "boom" : Except String Nat))
      = (.error "boom", [], 1) ∧
    cacheLookup
        (get_or_create ([] : CacheMap Nat) "aws" "storage" [("region", some "r")]
          (fun _ => (.error "boom" : Except String Nat))).2.1
        (make_key "aws" "storage" [("region", some "r")]) = none ∧
    get_or_create
        (get_or_create ([] : CacheMap Nat) "aws" "storage" [("region", some "r")]
          (fun _ => (.error "boom" : Except String Nat))).2.1
        "aws" "storage" [("region", some "r")] (fun _ => (.ok 5 : Except String Nat))
      = (.ok 5, [(make_key "aws" "storage" [("region", some "r")], 5)], 1) :=
  c6_failed_construction_leaves_no_entry [] "aws" "storage" [("region", some "r")]
    (fun _ => .error "boom") (fun _ => .ok 5) "boom" 5 rfl rfl rfl

/-- C7: `clear()` unconditionally empties the cache mapping, and a
`get_or_create` for a key that was previously present invokes the supplied
constructor again (count 1, fresh entry). -/
theorem c7_clear_evicts_all {α ε : Type}
    (cache : CacheMap α) (p s : String) (cfg : RawConfig)
    (g : RawConfig → Except ε α) (w v : α)
    (hhit : cacheLookup cache (make_key p s cfg) = some w)
    (hok : g cfg = .ok v) :
    ClientCache.clear cache = ([] : CacheMap α) ∧
    get_or_create (ClientCache.clear cache) p s cfg g
      = (.ok v, [(make_key p s cfg, v)], 1) := by
  refine ⟨rfl, ?_⟩
  simp [get_or_create, ClientCache.clear, cacheLookup, hok]

/-- Witness for `c7_clear_evicts_all` at a concrete previously-cached key. -/
theorem c7_witness :
    ClientCache.clear [(make_key "aws" "s3" [], (3 : Nat))] = ([] : CacheMap Nat) ∧
    get_or_create (ClientCache.clear [(make_key "aws" "s3" [], (3 : Nat))])
        "aws" "s3" [] (fun _ => (.ok 4 : Except String Nat))
      = (.ok 4, [(make_key "aws" "s3" [], 4)], 1) :=
  c7_clear_evicts_all [(make_key "aws" "s3" [], 3)] "aws" "s3" []
    (fun _ => .ok 4) 3 4 (by simp [cacheLookup]) rfl

/-- C9: `ClientCache()` is a process-wide singleton.  From any class/heap
state, a second evaluation of `ClientCache.__new__` returns the identical
object as the first and leaves the state unchanged, so all references share
one `_cache` mapping: a `clear()` through the second reference empties the
cache observed through the first. -/
theorem c9_singleton (s : CCWorld) :
    (new (new s).2).1 = (new s).1 ∧
    (new (new s).2).2 = (new s).2 ∧
    cacheOf (new s).1 (clearRef (new (new s).2).1 (new (new s).2).2) = [] := by
  cases h : s.instanceId with
  | some i => simp [new, h, clearRef, cacheOf]
  | none => simp [new, h, clearRef, cacheOf]

/-! ## Claim theorems: Config Resolver -/

/-- The code's per-field fallback (`if not values.get(field): values[field] =
os.environ.get(env_var)`) computes exactly the spec's precedence chain. -/
theorem awsResolveField_eq_spec (cfg : RawConfig) (env : Env) (f v : String) :
    awsResolveField cfg env f v = specFieldPrecedence (pyGet cfg f) (env v) := by
  unfold awsResolveField specFieldPrecedence
  cases h : pyGet cfg f with
  | none => simp [truthy]
  | some s =>
    by_cases hs : s = ""
    · subst hs; simp [truthy]
    · simp [truthy, hs]

/-- `AWSConfig` construction fails exactly when the raw config carries a key
not declared on the schema. -/
theorem awsValidate_isError_iff (cfg : RawConfig) (env : Env) :
    isError (awsValidate cfg env) = true ↔ unknownKeys cfg awsFields ≠ [] := by
  unfold awsValidate
  by_cases h : (unknownKeys cfg awsFields).isEmpty
  · simp [h, isError, List.isEmpty_iff.mp h]
  · simp only [h, if_false, Bool.false_eq_true, if_neg]
    simp [isError, List.isEmpty_iff] at h ⊢
    exact h

/-- `GCPConfig` construction fails exactly when: an unknown key is present,
the mandatory `project_id` is unresolved after the precedence chain, or a
credential-file path is set (non-empty) with no explicit credentials object
while the file does not exist. -/
theorem gcpValidate_isError_iff (cfg : RawConfig) (env : Env) (fs : FS) :
    isError (gcpValidate cfg env fs) = true ↔
      unknownKeys cfg gcpFields ≠ [] ∨
      gcpResolveProject cfg env = none ∨
      (pyGet cfg "credentials" = none ∧
        ∃ path, gcpResolveCredPath cfg env = some path ∧ path ≠ "" ∧
          fs.pathExists path = false) := by
  unfold gcpValidate
  by_cases h : (unknownKeys cfg gcpFields).isEmpty
  · have hnil : unknownKeys cfg gcpFields = [] := List.isEmpty_iff.mp h
    simp only [h, if_pos]
    cases hp : gcpResolveProject cfg env with
    | none => simp [isError, hnil, hp]
    | some p =>
      cases hcred : pyGet cfg "credentials" with
      | some c => simp [isError, hnil, hp, hcred]
      | none =>
        cases hpath : gcpResolveCredPath cfg env with
        | none => simp [isError, hnil, hp, hcred, hpath, truthy]
        | some path =>
          by_cases hpe : path = ""
          · subst hpe
            simp [isError, hnil, hp, hcred, hpath, truthy]
          · have htr : truthy (some path) = true := by simp [truthy, hpe]
            by_cases hex : fs.pathExists path
            · simp [isError, hnil, hp, hcred, hpath, htr, hex, hpe]
            · simp only [Bool.not_eq_true] at hex
              simp [isError, hnil, hp, hcred, hpath, htr, hex, hpe]
  · have hne : unknownKeys cfg gcpFields ≠ [] := by
      simpa [List.isEmpty_iff] using h
    simp [h, isError, hne]

/-- C3: resolving a GCP config from an empty raw mapping with no project
environment variable set fails (a `ValidationError` wrapping the resolver's
`ValueError`, the spec's `ConfigError` kind) with a message mentioning the
missing `project_id` field; setting the project id via `GOOGLE_CLOUD_PROJECT`
alone is sufficient for resolution to succeed. -/
theorem c3_gcp_project_mandatory (env1 env2 : Env) (fs : FS) (p : String)
    (h1 : env1 "GOOGLE_CLOUD_PROJECT" = none) (h2 : env1 "GCLOUD_PROJECT" = none)
    (h3 : env2 "GOOGLE_CLOUD_PROJECT" = some p) (h4 : p ≠ "")
    (h5 : env2 "GOOGLE_APPLICATION_CREDENTIALS" = none) :
    (gcpValidate [] env1 fs = .error (.validationError [gcpProjectRequiredMsg]) ∧
      strMentions "project_id" gcpProjectRequiredMsg = true) ∧
    gcpValidate [] env2 fs
      = .ok { project_id := some p, credentials := none, credentials_path := none } := by
  refine ⟨⟨?_, by decide⟩, ?_⟩
  · simp [gcpValidate, gcpResolveProject, pyGet, pyOr, truthy, unknownKeys, h1, h2]
  · simp [gcpValidate, gcpResolveProject, gcpResolveCredPath, pyGet, pyOr, truthy,
      unknownKeys, h3, h4, h5]

/-- Witness for `c3_gcp_project_mandatory`: empty environment versus an
environment carrying only `GOOGLE_CLOUD_PROJECT=env-proj`. -/
theorem c3_witness :
    (gcpValidate [] env0 fs0 = .error (.validationError [gcpProjectRequiredMsg]) ∧
      strMentions "project_id" gcpProjectRequiredMsg = true) ∧
    gcpValidate [] envGcpProj fs0
      = .ok { project_id := some "env-proj", credentials := none, credentials_path := none } :=
  c3_gcp_project_mandatory env0 envGcpProj fs0 "env-proj" rfl rfl rfl (by decide) rfl

/-- `GCPConfig.resolve_from_env` on `project_id` computes the spec's
precedence chain, with the statically-mapped environment value being
`GOOGLE_CLOUD_PROJECT or GCLOUD_PROJECT`. -/
theorem gcpResolveProject_eq_spec (cfg : RawConfig) (env : Env) :
    gcpResolveProject cfg env
      = specFieldPrecedence (pyGet cfg "project_id")
          (pyOr (env "GOOGLE_CLOUD_PROJECT") (env "GCLOUD_PROJECT")) := by
  unfold gcpResolveProject specFieldPrecedence
  cases h : pyGet cfg "project_id" with
  | none => simp [truthy]
  | some s =>
    by_cases hs : s = ""
    · subst hs; simp [truthy]
    · simp [truthy, hs]

/-- `GCPConfig.resolve_from_env` on `credentials_path` computes the spec's
precedence chain with `GOOGLE_APPLICATION_CREDENTIALS` as the mapped
environment variable. -/
theorem gcpResolveCredPath_eq_spec (cfg : RawConfig) (env : Env) :
    gcpResolveCredPath cfg env
      = specFieldPrecedence (pyGet cfg "credentials_path")
          (env "GOOGLE_APPLICATION_CREDENTIALS") := by
  unfold gcpResolveCredPath specFieldPrecedence
  cases h : pyGet cfg "credentials_path" with
  | none => simp [truthy]
  | some s =>
    by_cases hs : s = ""
    · subst hs; simp [truthy]
    · simp [truthy, hs]

/-- On every successful `GCPConfig` construction, the `project_id` and
`credentials_path` fields carry exactly the values computed by
`resolve_from_env` (the after-validator only checks the project and fills the
`credentials` object). -/
theorem gcpValidate_ok_fields (cfg : RawConfig) (env : Env) (fs : FS) (c : GCPConfig)
    (h : gcpValidate cfg env fs = .ok c) :
    c.project_id = gcpResolveProject cfg env ∧
    c.credentials_path = gcpResolveCredPath cfg env := by
  unfold gcpValidate at h
  by_cases he : (unknownKeys cfg gcpFields).isEmpty
  · simp only [he, if_pos] at h
    cases hp : gcpResolveProject cfg env with
    | none => simp only [hp] at h; exact absurd h (by simp)
    | some p =>
      simp only [hp] at h
      cases hcp : gcpResolveCredPath cfg env with
      | none =>
        simp only [hcp, truthy, Bool.and_false, Bool.false_eq_true, if_false] at h
        injection h with h
        rw [← h]
        exact ⟨rfl, rfl⟩
      | some path =>
        simp only [hcp] at h
        split at h
        · split at h
          · injection h with h
            rw [← h]
            exact ⟨rfl, rfl⟩
          · exact absurd h (by simp)
        · injection h with h
          rw [← h]
          exact ⟨rfl, rfl⟩
  · rw [Bool.not_eq_true] at he
    simp only [he, Bool.false_eq_true, if_false] at h
    exact absurd h (by simp)

/-- C5: per-field resolution precedence.  (a) Every field of a successfully
constructed `AWSConfig` equals the spec's chain `specFieldPrecedence`:
explicit non-empty raw value, else environment variable, else unset.
(b) For the mandatory GCP `project_id`, reaching the final step with no value
(falsy raw value, neither project environment variable set) is a hard
failure.  (c) In particular an AWS field supplied as the empty string falls
back to its environment variable.  (d) The fields of every successfully
constructed `GCPConfig` follow the same chain: `project_id` resolves through
the statically-mapped `GOOGLE_CLOUD_PROJECT or GCLOUD_PROJECT` value and
`credentials_path` through `GOOGLE_APPLICATION_CREDENTIALS`. -/
theorem c5_resolution_precedence :
    (∀ (cfg : RawConfig) (env : Env) (c : AWSConfig), awsValidate cfg env = .ok c →
      c.aws_access_key_id
          = specFieldPrecedence (pyGet cfg "aws_access_key_id") (env "AWS_ACCESS_KEY_ID") ∧
      c.aws_secret_access_key
          = specFieldPrecedence (pyGet cfg "aws_secret_access_key") (env "AWS_SECRET_ACCESS_KEY") ∧
      c.region_name
          = specFieldPrecedence (pyGet cfg "region_name") (env "AWS_DEFAULT_REGION")) ∧
    (∀ (cfg : RawConfig) (env : Env) (fs : FS), truthy (pyGet cfg "project_id") = false →
      env "GOOGLE_CLOUD_PROJECT" = none → env "GCLOUD_PROJECT" = none →
      unknownKeys cfg gcpFields = [] →
      gcpValidate cfg env fs = .error (.validationError [gcpProjectRequiredMsg])) ∧
    (∀ (cfg : RawConfig) (env : Env) (c : AWSConfig), pyGet cfg "region_name" = some "" →
      awsValidate cfg env = .ok c → c.region_name = env "AWS_DEFAULT_REGION") ∧
    (∀ (cfg : RawConfig) (env : Env) (fs : FS) (c : GCPConfig),
      gcpValidate cfg env fs = .ok c →
      c.project_id
          = specFieldPrecedence (pyGet cfg "project_id")
              (pyOr (env "GOOGLE_CLOUD_PROJECT") (env "GCLOUD_PROJECT")) ∧
      c.credentials_path
          = specFieldPrecedence (pyGet cfg "credentials_path")
              (env "GOOGLE_APPLICATION_CREDENTIALS")) := by
  refine ⟨?_, ?_, ?_, ?_⟩
  · intro cfg env c
    unfold awsValidate
    by_cases he : (unknownKeys cfg awsFields).isEmpty
    · simp only [he, if_pos]
      intro h
      injection h with h
      rw [← h]
      refine ⟨?_, ?_, ?_⟩ <;> simp [awsResolveField_eq_spec]
    · simp [he]
  · intro cfg env fs ht h1 h2 hu
    have hp : gcpResolveProject cfg env = none := by
      simp [gcpResolveProject, ht, h1, h2, pyOr]
    simp [gcpValidate, hu, hp]
  · intro cfg env c hr
    unfold awsValidate
    by_cases he : (unknownKeys cfg awsFields).isEmpty
    · simp only [he, if_pos]
      intro h
      injection h with h
      rw [← h]
      simp [awsResolveField, hr, truthy]
    · simp [he]
  · intro cfg env fs c h
    obtain ⟨h1, h2⟩ := gcpValidate_ok_fields cfg env fs c h
    rw [h1, h2]
    exact ⟨gcpResolveProject_eq_spec cfg env, gcpResolveCredPath_eq_spec cfg env⟩

/-- Witness for `c5_resolution_precedence`: an explicit AWS key, the
GCP hard-failure scenario, an empty-string AWS region falling back to
`AWS_DEFAULT_REGION=eu-west-1`, and a GCP config resolving its project id
explicitly and its credentials path from `GOOGLE_APPLICATION_CREDENTIALS`
unset. -/
theorem c5_witness :
    ((AWSConfig.mk (some "AKIA") none none).aws_access_key_id
        = specFieldPrecedence (pyGet [("aws_access_key_id", some "AKIA")] "aws_access_key_id")
            (env0 "AWS_ACCESS_KEY_ID") ∧
      (AWSConfig.mk (some "AKIA") none none).aws_secret_access_key
        = specFieldPrecedence (pyGet [("aws_access_key_id", some "AKIA")] "aws_secret_access_key")
            (env0 "AWS_SECRET_ACCESS_KEY") ∧
      (AWSConfig.mk (some "AKIA") none none).region_name
        = specFieldPrecedence (pyGet [("aws_access_key_id", some "AKIA")] "region_name")
            (env0 "AWS_DEFAULT_REGION")) ∧
    gcpValidate [("project_id", some "")] env0 fs0
      = .error (.validationError [gcpProjectRequiredMsg]) ∧
    (AWSConfig.mk none none (some "eu-west-1")).region_name
      = (fun v => if v = "AWS_DEFAULT_REGION" then some "eu-west-1" else none) "AWS_DEFAULT_REGION" ∧
    ((GCPConfig.mk (some "my-proj") none none).project_id
        = specFieldPrecedence (pyGet [("project_id", some "my-proj")] "project_id")
            (pyOr (env0 "GOOGLE_CLOUD_PROJECT") (env0 "GCLOUD_PROJECT")) ∧
      (GCPConfig.mk (some "my-proj") none none).credentials_path
        = specFieldPrecedence (pyGet [("project_id", some "my-proj")] "credentials_path")
            (env0 "GOOGLE_APPLICATION_CREDENTIALS")) :=
  ⟨c5_resolution_precedence.1 [("aws_access_key_id", some "AKIA")] env0
      (AWSConfig.mk (some "AKIA") none none) rfl,
   c5_resolution_precedence.2.1 [("project_id", some "")] env0 fs0 rfl rfl rfl rfl,
   c5_resolution_precedence.2.2.1 [("region_name", some "")]
      (fun v => if v = "AWS_DEFAULT_REGION" then some "eu-west-1" else none)
      (AWSConfig.mk none none (some "eu-west-1")) rfl rfl,
   c5_resolution_precedence.2.2.2 [("project_id", some "my-proj")] env0 fs0
      (GCPConfig.mk (some "my-proj") none none) rfl⟩

/-- `Except.map` preserves error-ness. -/
theorem isError_map {ε α β : Type} (x : Except ε α) (f : α → β) :
    isError (x.map f) = isError x := by
  cases x <;> rfl

/-- C8: `validate_config` fails exactly when the provider is not a key of the
fixed registry, the raw config carries a key undeclared on the target
variant's schema, the mandatory GCP `project_id` remains unresolved after the
precedence chain, or a referenced (non-empty) credential-file path without an
explicit credentials object does not exist on disk. -/
theorem c8_config_error_exactly (prov : String) (cfg : RawConfig) (env : Env) (fs : FS) :
    isError (validate_config prov cfg env fs) = true ↔
      (CONFIG_REGISTRY.lookup prov = none ∨
       (prov = "aws" ∧ unknownKeys cfg awsFields ≠ []) ∨
       (prov = "gcp" ∧
         (unknownKeys cfg gcpFields ≠ [] ∨
          gcpResolveProject cfg env = none ∨
          (pyGet cfg "credentials" = none ∧
            ∃ path, gcpResolveCredPath cfg env = some path ∧ path ≠ "" ∧
              fs.pathExists path = false)))) := by
  by_cases hA : prov = "aws"
  · subst hA
    rw [show validate_config "aws" cfg env fs = (awsValidate cfg env).map ProviderConfig.aws
        from rfl]
    rw [isError_map, awsValidate_isError_iff]
    simp [show CONFIG_REGISTRY.lookup "aws" = some ConfigModel.awsModel from rfl,
      show ("aws" : String) ≠ "gcp" by decide]
  · by_cases hG : prov = "gcp"
    · subst hG
      rw [show validate_config "gcp" cfg env fs = (gcpValidate cfg env fs).map ProviderConfig.gcp
          from rfl]
      rw [isError_map, gcpValidate_isError_iff]
      simp [show CONFIG_REGISTRY.lookup "gcp" = some ConfigModel.gcpModel from rfl,
        show ("gcp" : String) ≠ "aws" by decide]
    · have e1 : (prov == "aws") = false := beq_eq_false_iff_ne.mpr hA
      have e2 : (prov == "gcp") = false := beq_eq_false_iff_ne.mpr hG
      have hl : CONFIG_REGISTRY.lookup prov = none := by
        simp [CONFIG_REGISTRY, List.lookup, e1, e2]
      simp [validate_config, hl, isError, hA, hG]

/-! ## Claim theorems: Universal Factory -/

/-- C1 counterexample: two sequential `universal_factory("storage","aws",cfg)`
calls with byte-identical configs return two distinct backend instances
(identities 0 and 1) — the factory constructs directly via
`service_class(configObj)` and never consults the Client Cache, so the
instances are not identity-equal. -/
theorem c1_counterexample :
    universal_factory "storage" "aws" [] env0 fs0 w0
      = .ok (0, { nextId := 1,
                  constructed := [("aws.Storage", .aws ⟨none, none, none⟩)] }) ∧
    universal_factory "storage" "aws" [] env0 fs0
        { nextId := 1, constructed := [("aws.Storage", .aws ⟨none, none, none⟩)] }
      = .ok (1, { nextId := 2,
                  constructed := [("aws.Storage", .aws ⟨none, none, none⟩),
                                  ("aws.Storage", .aws ⟨none, none, none⟩)] }) ∧
    (0 : Nat) ≠ 1 :=
  ⟨rfl, rfl, by decide⟩

/-- C1 (amended): every successful `universal_factory` call allocates a fresh
backend instance — the backend constructor runs once per call, not at most
once per distinct key.  A second sequential call with the identical arguments
succeeds and returns a distinct (not identity-equal) instance, having invoked
the constructor a second time. -/
theorem c1_amended_fresh_instance_per_call
    (svc prov : String) (cfg : RawConfig) (env : Env) (fs : FS) (w : World)
    (i1 : Nat) (w1 : World)
    (h : universal_factory svc prov cfg env fs w = .ok (i1, w1)) :
    i1 = w.nextId ∧
    w1.constructed.length = w.constructed.length + 1 ∧
    (∃ w2, universal_factory svc prov cfg env fs w1 = .ok (w.nextId + 1, w2) ∧
      w2.constructed.length = w.constructed.length + 2) ∧
    w.nextId + 1 ≠ i1 := by
  unfold universal_factory at h ⊢
  cases hp : FACTORY_REGISTRY.lookup prov with
  | none => simp only [hp] at h; exact absurd h (by simp)
  | some services =>
    simp only [hp] at h
    cases hs : services.lookup svc with
    | none => simp only [hs] at h; exact absurd h (by simp)
    | some cls =>
      simp only [hs] at h
      cases hv : validate_config prov cfg env fs with
      | error e => simp only [hv] at h; exact absurd h (by simp)
      | ok cfgObj =>
        simp only [hv, construct, Except.ok.injEq, Prod.mk.injEq] at h
        obtain ⟨h1, h2⟩ := h
        subst h1
        subst h2
        refine ⟨rfl, by simp,
          ⟨{ nextId := w.nextId + 2,
             constructed := (w.constructed ++ [(cls, cfgObj)]) ++ [(cls, cfgObj)] },
            ?_, ?_⟩, by omega⟩
        · simp [construct, hs]
        · simp

/-- Witness for `c1_amended_fresh_instance_per_call` at the concrete
aws/storage scenario of `c1_counterexample`. -/
theorem c1_amended_witness :
    (0 = w0.nextId ∧
     ({ nextId := 1, constructed := [("aws.Storage", .aws ⟨none, none, none⟩)] }
        : World).constructed.length = w0.constructed.length + 1 ∧
     (∃ w2, universal_factory "storage" "aws" [] env0 fs0
          { nextId := 1, constructed := [("aws.Storage", .aws ⟨none, none, none⟩)] }
        = .ok (w0.nextId + 1, w2) ∧
        w2.constructed.length = w0.constructed.length + 2) ∧
     w0.nextId + 1 ≠ 0) :=
  c1_amended_fresh_instance_per_call "storage" "aws" [] env0 fs0 w0 0
    { nextId := 1, constructed := [("aws.Storage", .aws ⟨none, none, none⟩)] } rfl

/-- C2 counterexample: the unknown-provider failure and the unknown-service
failure are raised with the same Python exception class (`ValueError`) —
there are no two distinct error kinds, only two message texts. -/
theorem c2_counterexample :
    universal_factory "secret_manager" "azure" [] env0 fs0 w0
      = .error (.valueError "Unsupported cloud provider: azure") ∧
    universal_factory "database" "aws" [] env0 fs0 w0
      = .error (.valueError "Unsupported service 'database' for provider 'aws'") ∧
    PyErr.kind (.valueError "Unsupported cloud provider: azure")
      = PyErr.kind (.valueError "Unsupported service 'database' for provider 'aws'") :=
  ⟨rfl, rfl, rfl⟩

/-- C2 (amended): for a provider absent from the registry `universal_factory`
fails with `ValueError "Unsupported cloud provider: ..."`, and for a known
provider with an absent service it fails with
`ValueError "Unsupported service ... for provider ..."` — one generic error
class whose message names the unsupported axis.  The result is the same for
every config, environment, filesystem and construction state: the failure
occurs before any config validation or backend construction. -/
theorem c2_amended_value_error_before_validation
    (svc prov : String) (cfg : RawConfig) (env : Env) (fs : FS) (w : World) :
    (FACTORY_REGISTRY.lookup prov = none →
      universal_factory svc prov cfg env fs w
        = .error (.valueError ("Unsupported cloud provider: " ++ prov))) ∧
    (∀ services, FACTORY_REGISTRY.lookup prov = some services →
      services.lookup svc = none →
      universal_factory svc prov cfg env fs w
        = .error (.valueError
            ("Unsupported service '" ++ svc ++ "' for provider '" ++ prov ++ "'"))) := by
  constructor
  · intro hp
    unfold universal_factory
    simp [hp]
  · intro services hp hs
    unfold universal_factory
    simp [hp, hs]

/-- Witness for `c2_amended_value_error_before_validation` at the concrete
inputs of `c2_counterexample`. -/
theorem c2_amended_witness :
    universal_factory "secret_manager" "azure" [] env0 fs0 w0
      = .error (.valueError ("Unsupported cloud provider: " ++ "azure")) ∧
    universal_factory "database" "aws" [] env0 fs0 w0
      = .error (.valueError
          ("Unsupported service '" ++ "database" ++ "' for provider '" ++ "aws" ++ "'")) :=
  ⟨(c2_amended_value_error_before_validation "secret_manager" "azure" [] env0 fs0 w0).1 rfl,
   (c2_amended_value_error_before_validation "database" "aws" [] env0 fs0 w0).2
     AWS_SERVICES rfl rfl⟩

/-- Every construction failure of the AWS config model is a
`pydantic.ValidationError`, never a bare `ValueError`. -/
theorem awsValidate_error_validation (cfg : RawConfig) (env : Env) (e : PyErr)
    (h : awsValidate cfg env = .error e) : ∃ msgs, e = .validationError msgs := by
  unfold awsValidate at h
  by_cases he : (unknownKeys cfg awsFields).isEmpty
  · simp [he] at h
  · rw [Bool.not_eq_true] at he
    simp only [he, Bool.false_eq_true, if_false] at h
    exact ⟨_, by injection h with h; exact h.symm⟩

/-- Every construction failure of the GCP config model is a
`pydantic.ValidationError`, never a bare `ValueError`. -/
theorem gcpValidate_error_validation (cfg : RawConfig) (env : Env) (fs : FS) (e : PyErr)
    (h : gcpValidate cfg env fs = .error e) : ∃ msgs, e = .validationError msgs := by
  unfold gcpValidate at h
  by_cases he : (unknownKeys cfg gcpFields).isEmpty
  · simp only [he, if_pos] at h
    cases hp : gcpResolveProject cfg env with
    | none =>
      simp only [hp] at h
      exact ⟨_, by injection h with h; exact h.symm⟩
    | some p =>
      simp only [hp] at h
      split at h
      · split at h
        · split at h
          · exact absurd h (by simp)
          · exact ⟨_, by injection h with h; exact h.symm⟩
        · exact absurd h (by simp)
      · exact absurd h (by simp)
  · rw [Bool.not_eq_true] at he
    simp only [he, Bool.false_eq_true, if_false] at h
    exact ⟨_, by injection h with h; exact h.symm⟩

/-- The factory's unknown-provider message never coincides with
`validate_config`'s unknown-provider message (their fixed parts differ in
length). -/
theorem providerMsg_ne_noConfigMsg (prov : String) :
    ("Unsupported cloud provider: " ++ prov)
      ≠ ("No config model registered for provider: " ++ prov) := by
  intro h
  have hlen := congrArg String.length h
  rw [String.length_append, String.length_append] at hlen
  have hne : ("Unsupported cloud provider: ").length
      ≠ ("No config model registered for provider: ").length := by decide
  omega

/-- The factory's unknown-service message never coincides with
`validate_config`'s unknown-provider message (their first characters differ). -/
theorem serviceMsg_ne_noConfigMsg (svc prov : String) :
    ("Unsupported service '" ++ svc ++ "' for provider '" ++ prov ++ "'")
      ≠ ("No config model registered for provider: " ++ prov) := by
  intro h
  have hh := congrArg (fun s => s.data.head?) h
  simp only [String.data_append, List.head?_append] at hh
  rw [show ("Unsupported service '").data.head? = some 'U' from rfl,
      show ("No config model registered for provider: ").data.head? = some 'N' from rfl] at hh
  simp only [Option.or_some] at hh
  exact absurd hh (by decide)

/-- C10: the factory registry and the config-model registry have identical key
sets (exactly aws and gcp): every provider admitted by `universal_factory`'s
registry check has a config model, so `validate_config`'s
"No config model registered" failure branch is unreachable from
`universal_factory` — no call can ever produce that error. -/
theorem c10_registries_aligned :
    FACTORY_REGISTRY.map Prod.fst = CONFIG_REGISTRY.map Prod.fst ∧
    (∀ prov, (FACTORY_REGISTRY.lookup prov).isSome → (CONFIG_REGISTRY.lookup prov).isSome) ∧
    (∀ (svc prov : String) (cfg : RawConfig) (env : Env) (fs : FS) (w : World),
      universal_factory svc prov cfg env fs w
        ≠ .error (.valueError ("No config model registered for provider: " ++ prov))) := by
  refine ⟨rfl, ?_, ?_⟩
  · intro prov hp
    by_cases hA : prov = "aws"
    · subst hA; rfl
    · by_cases hG : prov = "gcp"
      · subst hG; rfl
      · exfalso
        have e1 : (prov == "aws") = false := beq_eq_false_iff_ne.mpr hA
        have e2 : (prov == "gcp") = false := beq_eq_false_iff_ne.mpr hG
        rw [show FACTORY_REGISTRY.lookup prov = none from by
          simp [FACTORY_REGISTRY, List.lookup, e1, e2]] at hp
        simp at hp
  · intro svc prov cfg env fs w
    unfold universal_factory
    cases hp : FACTORY_REGISTRY.lookup prov with
    | none =>
      simp only [ne_eq, Except.error.injEq, PyErr.valueError.injEq]
      exact providerMsg_ne_noConfigMsg prov
    | some services =>
      cases hs : services.lookup svc with
      | none =>
        simp only [hs, ne_eq, Except.error.injEq, PyErr.valueError.injEq]
        exact serviceMsg_ne_noConfigMsg svc prov
      | some cls =>
        simp only [hs]
        cases hv : validate_config prov cfg env fs with
        | ok cfgObj => simp
        | error e =>
          simp only [ne_eq, Except.error.injEq]
          have hprov : prov = "aws" ∨ prov = "gcp" := by
            by_cases hA : prov = "aws"
            · exact Or.inl hA
            · by_cases hG : prov = "gcp"
              · exact Or.inr hG
              · exfalso
                rw [show FACTORY_REGISTRY.lookup prov = none from by
                  simp [FACTORY_REGISTRY, List.lookup,
                    beq_eq_false_iff_ne.mpr hA, beq_eq_false_iff_ne.mpr hG]] at hp
                exact absurd hp (by simp)
          have hval : ∃ msgs, e = .validationError msgs := by
            rcases hprov with rfl | rfl
            · rw [show validate_config "aws" cfg env fs
                  = (awsValidate cfg env).map ProviderConfig.aws from rfl] at hv
              cases ha : awsValidate cfg env with
              | ok c => rw [ha] at hv; exact absurd hv (by simp [Except.map])
              | error e' =>
                rw [ha] at hv
                simp only [Except.map] at hv
                injection hv with hv
                rw [← hv]
                exact awsValidate_error_validation cfg env e' ha
            · rw [show validate_config "gcp" cfg env fs
                  = (gcpValidate cfg env fs).map ProviderConfig.gcp from rfl] at hv
              cases hg : gcpValidate cfg env fs with
              | ok c => rw [hg] at hv; exact absurd hv (by simp [Except.map])
              | error e' =>
                rw [hg] at hv
                simp only [Except.map] at hv
                injection hv with hv
                rw [← hv]
                exact gcpValidate_error_validation cfg env fs e' hg
          obtain ⟨msgs, rfl⟩ := hval
          simp
